import Mathlib

/-
Verification of the prompt/label tokenization pipeline of
src/finetune/lora/Others/finetune.py (repository zjunlp/cama).

The original logic of the file is the pair of closures `tokenize` and
`generate_and_tokenize_prompt` defined inside `train`, together with the
pad/eos token resolution that precedes them.  The external Hugging Face
tokenizer is modelled abstractly by its raw encoding function; the call
made by the script (truncation enabled at cutoff_len, padding disabled)
keeps the first cutoff_len ids and returns an attention mask of ones of
the same length, which is the documented behaviour of that call.
-/

/-- Sentinel label value excluded from loss computation
(finetune.py line 39, `LABEL_PAD_TOKEN_ID = -100`). -/
def LABEL_PAD_TOKEN_ID : Int := -100

/-- The record produced by the pipeline for each dataset row: the dict with
keys input_ids, attention_mask and labels built by `tokenize` in
finetune.py lines 167-187. -/
structure TokenizedExample where
  input_ids : List Int
  attention_mask : List Nat
  labels : List Int
deriving Repr, DecidableEq

/-- Abstract external tokenizer as used by the script: `encode` gives the
untruncated token ids of a string, `eos_token_id` the end-of-sequence id
compared and appended in finetune.py lines 177-183. -/
structure Tokenizer where
  encode : String → List Int
  eos_token_id : Int

/-- A dataset record: a mapping with the string keys instruction, input and
output (finetune.py lines 190-194). -/
structure DataPoint where
  instruction : String
  input : String
  output : String
deriving Repr, DecidableEq

/-- The `tokenize` closure of finetune.py lines 167-187.  The library call
(lines 170-176) truncates to `cutoff_len` and, with padding disabled,
returns an all-ones attention mask.  The eos check (line 178) indexes
`result["input_ids"][-1]` unguarded; on an empty id list the Python code
raises IndexError, modelled here as `none`.  Otherwise, when the last id
differs from the eos id, the length is strictly below `cutoff_len` and
`add_eos_token` is set, the eos id and a mask bit 1 are appended; labels
are a copy of the final input_ids (line 185). -/
def tokenize (tk : Tokenizer) (cutoff_len : Nat) (prompt : String)
    (add_eos_token : Bool) : Option TokenizedExample :=
  let ids := (tk.encode prompt).take cutoff_len
  let mask := List.replicate ids.length 1
  match ids.getLast? with
  | none => none
  | some last =>
    if last ≠ tk.eos_token_id ∧ ids.length < cutoff_len ∧ add_eos_token = true then
      some ⟨ids ++ [tk.eos_token_id], mask ++ [1], ids ++ [tk.eos_token_id]⟩
    else
      some ⟨ids, mask, ids⟩

/-- The `generate_and_tokenize_prompt` closure of finetune.py lines 189-205.
The prompter (utils/prompter.py, imported at line 25 but not part of the
sources) is abstracted as the pure function `generate_prompt` taking the
instruction, the input and an optional output.  When `train_on_inputs` is
false the prompt without the output is tokenized without the eos append,
its length taken (line 201), and the labels overwritten by that many
ignore sentinels followed by the tail of the copied labels (line 204). -/
def generate_and_tokenize_prompt (tk : Tokenizer) (cutoff_len : Nat)
    (generate_prompt : String → String → Option String → String)
    (train_on_inputs : Bool) (dp : DataPoint) : Option TokenizedExample :=
  let full_prompt := generate_prompt dp.instruction dp.input (some dp.output)
  match tokenize tk cutoff_len full_prompt true with
  | none => none
  | some tfp =>
    if train_on_inputs then
      some tfp
    else
      let user_prompt := generate_prompt dp.instruction dp.input none
      match tokenize tk cutoff_len user_prompt false with
      | none => none
      | some tup =>
        some ⟨tfp.input_ids, tfp.attention_mask,
          List.replicate tup.input_ids.length LABEL_PAD_TOKEN_ID ++
            tfp.labels.drop tup.input_ids.length⟩

/-- The token-id attributes read and written by the pad/eos resolution of
finetune.py lines 157-165: the tokenizer's pad and eos ids (either may be
undefined) and the QWen-specific `eod_id` attribute (`none` when the
tokenizer object has no such attribute). -/
structure TokenizerIds where
  pad_token_id : Option Int
  eos_token_id : Option Int
  eod_id : Option Int
deriving Repr, DecidableEq

/-- Outcome of the pad/eos resolution.  `configurationError` is the failure
mode the specification describes; `attributeError` is the Python
AttributeError raised by reading a missing `eod_id` attribute. -/
inductive PadOutcome where
  | ok (tk : TokenizerIds)
  | attributeError
  | configurationError
deriving Repr, DecidableEq

/-- The pad/eos resolution of finetune.py lines 157-165: when the pad id is
undefined, a QWen architecture copies `eod_id` into both pad and eos ids
(reading `eod_id` raises AttributeError when the attribute is absent);
any other architecture copies the eos id, defined or not, into the pad id.
No other outcome exists in the code. -/
def resolve_pad_token (tk : TokenizerIds) (arch_is_qwen : Bool) : PadOutcome :=
  match tk.pad_token_id with
  | some _ => .ok tk
  | none =>
    if arch_is_qwen then
      match tk.eod_id with
      | none => .attributeError
      | some e => .ok ⟨some e, some e, tk.eod_id⟩
    else
      .ok ⟨tk.eos_token_id, tk.eos_token_id, tk.eod_id⟩

/-- Modelled from the spec: the Prompter class of utils/prompter.py is
imported by finetune.py (line 25) but its source is not in the repository
snapshot.  Per spec section 4.1, `render` maps an instruction, an optional
input and an optional output to text; it must support at least the built-in
alpaca template and fail with a ConfigurationError on an unknown template
name, and is deterministic with no side effects. -/
def alpacaText (instruction : String) (inp : Option String)
    (out : Option String) : String :=
  let header :=
    match inp with
    | some i =>
      if i = "" then
        "Below is an instruction that describes a task. Write a response that appropriately completes the request.\n\n### Instruction:\n"
          ++ instruction ++ "\n\n### Response:\n"
      else
        "Below is an instruction that describes a task, paired with an input that provides further context. Write a response that appropriately completes the request.\n\n### Instruction:\n"
          ++ instruction ++ "\n\n### Input:\n" ++ i ++ "\n\n### Response:\n"
    | none =>
      "Below is an instruction that describes a task. Write a response that appropriately completes the request.\n\n### Instruction:\n"
        ++ instruction ++ "\n\n### Response:\n"
  match out with
  | some o => header ++ o
  | none => header

/-- Modelled from the spec: the render contract of spec section 4.1 over the
missing Prompter source; an unknown template name is a configuration
error. -/
def render (instruction : String) (inp : Option String) (out : Option String)
    (template_name : String) : Except String String :=
  if template_name = "alpaca" then
    .ok (alpacaText instruction inp out)
  else
    .error ("unknown template name " ++ template_name)

/-- Concrete tokenizer used to witness the theorems: the id of position n is
n + 40, the eos id is 99. -/
def demoTok : Tokenizer :=
  ⟨fun s => (List.range s.length).map (fun n => (n : Int) + 40), 99⟩

/-- Concrete prompt assembly used to witness the theorems. -/
def demoGp : String → String → Option String → String :=
  fun ins inp out => ins ++ inp ++ (match out with | some o => o | none => "")

/-- Concrete dataset record used to witness the theorems. -/
def demoDp : DataPoint := ⟨"ab", "", "Z"⟩

theorem tokenize_spec (tk : Tokenizer) (c : Nat) (p : String) (b : Bool)
    (ex : TokenizedExample) (h : tokenize tk c p b = some ex) :
    ex.labels = ex.input_ids ∧
    ex.attention_mask.length = ex.input_ids.length ∧
    (∀ x ∈ ex.attention_mask, x = 1) ∧
    min c (tk.encode p).length ≤ ex.input_ids.length ∧
    ex.input_ids.length ≤ c := by
  simp only [tokenize] at h
  split at h
  · exact absurd h (by simp)
  case h_2 last hlast =>
    have hlen : ((tk.encode p).take c).length = min c (tk.encode p).length :=
      List.length_take _ _
    split at h
    case isTrue hcond =>
      injection h with h
      subst h
      refine ⟨rfl, ?_, ?_, ?_, ?_⟩
      · simp
      · intro x hx
        rcases List.mem_append.mp hx with hx | hx
        · exact List.eq_of_mem_replicate hx
        · simpa using hx
      · simp only [List.length_append, List.length_cons, List.length_nil, hlen]
        omega
      · simp only [List.length_append, List.length_cons, List.length_nil]
        omega
    case isFalse hcond =>
      injection h with h
      subst h
      refine ⟨rfl, by simp, ?_, le_of_eq hlen.symm, ?_⟩
      · intro x hx
        exact List.eq_of_mem_replicate hx
      · rw [hlen]; exact Nat.min_le_left _ _

theorem tokenize_false_ids (tk : Tokenizer) (c : Nat) (p : String)
    (ex : TokenizedExample) (h : tokenize tk c p false = some ex) :
    ex.input_ids = (tk.encode p).take c := by
  simp only [tokenize] at h
  split at h
  · exact absurd h (by simp)
  · split at h
    case isTrue hcond => exact absurd hcond.2.2 (by simp)
    case isFalse hcond =>
      injection h with h
      subst h
      rfl

theorem pipeline_true_spec (tk : Tokenizer) (c : Nat)
    (gp : String → String → Option String → String) (dp : DataPoint)
    (ex : TokenizedExample)
    (h : generate_and_tokenize_prompt tk c gp true dp = some ex) :
    tokenize tk c (gp dp.instruction dp.input (some dp.output)) true = some ex := by
  simp only [generate_and_tokenize_prompt] at h
  split at h
  · exact absurd h (by simp)
  case h_2 tfp htfp =>
    simp only [if_true] at h
    injection h with h
    exact h ▸ htfp

theorem pipeline_false_spec (tk : Tokenizer) (c : Nat)
    (gp : String → String → Option String → String) (dp : DataPoint)
    (ex : TokenizedExample)
    (h : generate_and_tokenize_prompt tk c gp false dp = some ex) :
    ∃ tfp tup : TokenizedExample,
      tokenize tk c (gp dp.instruction dp.input (some dp.output)) true = some tfp ∧
      tokenize tk c (gp dp.instruction dp.input none) false = some tup ∧
      ex = ⟨tfp.input_ids, tfp.attention_mask,
        List.replicate tup.input_ids.length LABEL_PAD_TOKEN_ID ++
          tfp.labels.drop tup.input_ids.length⟩ := by
  simp only [generate_and_tokenize_prompt] at h
  split at h
  · exact absurd h (by simp)
  case h_2 tfp htfp =>
    split at h
    case isTrue hcontra => exact absurd hcontra (by simp)
    case isFalse hcond =>
      split at h
      · exact absurd h (by simp)
      case h_2 tup htup =>
        injection h with h
        exact ⟨tfp, tup, htfp, htup, h.symm⟩

/-- C1: for every dataset record the pipeline turns into an example, the
three output sequences input_ids, attention_mask and labels have equal
length, for both values of train_on_inputs.  The hypothesis `hmono`
records the behaviour of the external tokenizer on the two rendered
prompts: the prompt without the output field, being a prefix of the full
prompt, does not encode to more tokens than the full prompt. -/
theorem c1_output_lengths_equal (tk : Tokenizer) (c : Nat)
    (gp : String → String → Option String → String) (toi : Bool)
    (dp : DataPoint) (ex : TokenizedExample)
    (hmono : (tk.encode (gp dp.instruction dp.input none)).length ≤
      (tk.encode (gp dp.instruction dp.input (some dp.output))).length)
    (h : generate_and_tokenize_prompt tk c gp toi dp = some ex) :
    ex.input_ids.length = ex.attention_mask.length ∧
    ex.input_ids.length = ex.labels.length := by
  cases toi
  case false =>
    obtain ⟨tfp, tup, htfp, htup, hex⟩ := pipeline_false_spec tk c gp dp ex h
    obtain ⟨hlab, hmask, -, hge, -⟩ := tokenize_spec _ _ _ _ _ htfp
    have htupids := tokenize_false_ids _ _ _ _ htup
    have h1 : tup.input_ids.length =
        min c (tk.encode (gp dp.instruction dp.input none)).length := by
      rw [htupids]; exact List.length_take _ _
    have h2 : min c (tk.encode (gp dp.instruction dp.input none)).length ≤
        min c (tk.encode (gp dp.instruction dp.input (some dp.output))).length :=
      min_le_min (le_refl c) hmono
    have hlablen : tfp.labels.length = tfp.input_ids.length := by rw [hlab]
    subst hex
    refine ⟨hmask.symm, ?_⟩
    simp only [List.length_append, List.length_replicate, List.length_drop]
    omega
  case true =>
    have htfp := pipeline_true_spec tk c gp dp ex h
    obtain ⟨hlab, hmask, -, -, -⟩ := tokenize_spec _ _ _ _ _ htfp
    exact ⟨hmask.symm, by rw [hlab]⟩

/-- C1 witness: the theorem applied to a concrete tokenizer, prompt
assembly and record, with cutoff 10 and train_on_inputs false. -/
theorem c1_output_lengths_equal_witness :
    (⟨[40, 41, 42, 99], [1, 1, 1, 1], [-100, -100, 42, 99]⟩ :
      TokenizedExample).input_ids.length =
      (⟨[40, 41, 42, 99], [1, 1, 1, 1], [-100, -100, 42, 99]⟩ :
        TokenizedExample).attention_mask.length ∧
    (⟨[40, 41, 42, 99], [1, 1, 1, 1], [-100, -100, 42, 99]⟩ :
      TokenizedExample).input_ids.length =
      (⟨[40, 41, 42, 99], [1, 1, 1, 1], [-100, -100, 42, 99]⟩ :
        TokenizedExample).labels.length :=
  c1_output_lengths_equal demoTok 10 demoGp false demoDp
    ⟨[40, 41, 42, 99], [1, 1, 1, 1], [-100, -100, 42, 99]⟩
    (by decide) (by decide)

/-- C2: when train_on_inputs is false and L is the length of the tokenized
prompt rendered without the output field (tokenized with the same
truncation but without the eos append), every label strictly before
position L is the ignore sentinel and every label from position L on
equals the corresponding input id. -/
theorem c2_labels_masked_before_split (tk : Tokenizer) (c : Nat)
    (gp : String → String → Option String → String) (dp : DataPoint)
    (ex tup : TokenizedExample)
    (htup : tokenize tk c (gp dp.instruction dp.input none) false = some tup)
    (h : generate_and_tokenize_prompt tk c gp false dp = some ex) :
    (∀ i, i < tup.input_ids.length → ex.labels[i]? = some LABEL_PAD_TOKEN_ID) ∧
    (∀ i, tup.input_ids.length ≤ i → ex.labels[i]? = ex.input_ids[i]?) := by
  obtain ⟨tfp, tup', htfp, htup', hex⟩ := pipeline_false_spec tk c gp dp ex h
  rw [htup] at htup'
  injection htup' with htup'
  subst htup'
  obtain ⟨hlab, -, -, -, -⟩ := tokenize_spec _ _ _ _ _ htfp
  subst hex
  constructor
  · intro i hi
    show (List.replicate tup.input_ids.length LABEL_PAD_TOKEN_ID ++
      tfp.labels.drop tup.input_ids.length)[i]? = some LABEL_PAD_TOKEN_ID
    rw [List.getElem?_append]
    simp [List.length_replicate, hi, List.getElem?_replicate]
  · intro i hi
    show (List.replicate tup.input_ids.length LABEL_PAD_TOKEN_ID ++
      tfp.labels.drop tup.input_ids.length)[i]? = tfp.input_ids[i]?
    rw [List.getElem?_append]
    rw [if_neg (by simp only [List.length_replicate]; omega)]
    simp only [List.length_replicate]
    rw [List.getElem?_drop]
    rw [show tup.input_ids.length + (i - tup.input_ids.length) = i from by omega]
    rw [hlab]

/-- C2 witness: at the concrete record, position 0 lies before the split
and carries the sentinel, position 3 lies after it and copies the input
id. -/
theorem c2_labels_masked_before_split_witness :
    (⟨[40, 41, 42, 99], [1, 1, 1, 1], [-100, -100, 42, 99]⟩ :
      TokenizedExample).labels[0]? = some LABEL_PAD_TOKEN_ID ∧
    (⟨[40, 41, 42, 99], [1, 1, 1, 1], [-100, -100, 42, 99]⟩ :
      TokenizedExample).labels[3]? =
      (⟨[40, 41, 42, 99], [1, 1, 1, 1], [-100, -100, 42, 99]⟩ :
        TokenizedExample).input_ids[3]? :=
  ⟨(c2_labels_masked_before_split demoTok 10 demoGp demoDp
      ⟨[40, 41, 42, 99], [1, 1, 1, 1], [-100, -100, 42, 99]⟩
      ⟨[40, 41], [1, 1], [40, 41]⟩ (by decide) (by decide)).1 0 (by decide),
   (c2_labels_masked_before_split demoTok 10 demoGp demoDp
      ⟨[40, 41, 42, 99], [1, 1, 1, 1], [-100, -100, 42, 99]⟩
      ⟨[40, 41], [1, 1], [40, 41]⟩ (by decide) (by decide)).2 3 (by decide)⟩

/-- C3 counterexample: with a tokenizer holding no pad id, no eos id and no
eod attribute, and a non-QWen architecture, the resolution of finetune.py
lines 157-165 does not fail with a ConfigurationError: it returns a normal
state whose pad id is still undefined. -/
theorem c3_counterexample :
    resolve_pad_token ⟨none, none, none⟩ false = PadOutcome.ok ⟨none, none, none⟩ ∧
    resolve_pad_token ⟨none, none, none⟩ false ≠ PadOutcome.configurationError := by
  constructor
  · rfl
  · decide

/-- C3 amended: the pad/eos resolution never produces a ConfigurationError;
when the pad id is undefined and the architecture is not QWen it copies
the eos id, defined or not, into the pad id and proceeds, so an
unresolvable pad id is carried on silently instead of failing. -/
theorem c3_resolution_never_fails (tk : TokenizerIds) (arch : Bool) :
    resolve_pad_token tk arch ≠ PadOutcome.configurationError ∧
    (tk.pad_token_id = none → arch = false →
      resolve_pad_token tk arch =
        PadOutcome.ok ⟨tk.eos_token_id, tk.eos_token_id, tk.eod_id⟩) := by
  obtain ⟨pad, eos, eod⟩ := tk
  constructor
  · cases pad <;> cases arch <;> cases eod <;> simp [resolve_pad_token]
  · intro hpad harch
    subst harch
    simp only at hpad
    subst hpad
    simp [resolve_pad_token]

/-- C3 amended witness: a tokenizer with an eos id but no pad id, on a
non-QWen architecture, resolves to that eos id without any error. -/
theorem c3_resolution_never_fails_witness :
    resolve_pad_token ⟨none, some 7, some 5⟩ false ≠ PadOutcome.configurationError ∧
    resolve_pad_token ⟨none, some 7, some 5⟩ false =
      PadOutcome.ok ⟨some 7, some 7, some 5⟩ :=
  ⟨(c3_resolution_never_fails ⟨none, some 7, some 5⟩ false).1,
   (c3_resolution_never_fails ⟨none, some 7, some 5⟩ false).2 rfl rfl⟩

/-- C4: for a prompt tokenized with the eos append enabled, if the
truncated sequence is shorter than the cutoff and its last id is not the
eos id, the produced input_ids ends with the eos id and the produced
attention_mask ends with 1. -/
theorem c4_eos_terminated (tk : Tokenizer) (c : Nat) (p : String) (last : Int)
    (hlast : ((tk.encode p).take c).getLast? = some last)
    (hne : last ≠ tk.eos_token_id)
    (hlt : ((tk.encode p).take c).length < c) :
    ∃ ex, tokenize tk c p true = some ex ∧
      ex.input_ids.getLast? = some tk.eos_token_id ∧
      ex.attention_mask.getLast? = some 1 := by
  refine ⟨⟨(tk.encode p).take c ++ [tk.eos_token_id],
    List.replicate ((tk.encode p).take c).length 1 ++ [1],
    (tk.encode p).take c ++ [tk.eos_token_id]⟩, ?_, by simp, by simp⟩
  simp only [tokenize, hlast]
  rw [if_pos ⟨hne, hlt, trivial⟩]

/-- C4 witness: the theorem applied at the concrete tokenizer on the prompt
of three characters with cutoff 10. -/
theorem c4_eos_terminated_witness :
    ∃ ex, tokenize demoTok 10 "abZ" true = some ex ∧
      ex.input_ids.getLast? = some demoTok.eos_token_id ∧
      ex.attention_mask.getLast? = some 1 :=
  c4_eos_terminated demoTok 10 "abZ" 42 (by decide) (by decide) (by decide)

/-- C5: when train_on_inputs is true, the labels returned by the pipeline
are exactly the input_ids. -/
theorem c5_labels_equal_input_ids (tk : Tokenizer) (c : Nat)
    (gp : String → String → Option String → String) (dp : DataPoint)
    (ex : TokenizedExample)
    (h : generate_and_tokenize_prompt tk c gp true dp = some ex) :
    ex.labels = ex.input_ids :=
  (tokenize_spec _ _ _ _ _ (pipeline_true_spec tk c gp dp ex h)).1

/-- C5 witness: the theorem applied at the concrete record with
train_on_inputs true. -/
theorem c5_labels_equal_input_ids_witness :
    (⟨[40, 41, 42, 99], [1, 1, 1, 1], [40, 41, 42, 99]⟩ :
      TokenizedExample).labels =
    (⟨[40, 41, 42, 99], [1, 1, 1, 1], [40, 41, 42, 99]⟩ :
      TokenizedExample).input_ids :=
  c5_labels_equal_input_ids demoTok 10 demoGp demoDp
    ⟨[40, 41, 42, 99], [1, 1, 1, 1], [40, 41, 42, 99]⟩ (by decide)

/-- C6: every example produced by the tokenize step has input_ids of length
at most the cutoff, the eos append included, since the append happens only
when the truncated length is strictly below the cutoff. -/
theorem c6_input_ids_within_cutoff (tk : Tokenizer) (c : Nat) (p : String)
    (b : Bool) (ex : TokenizedExample) (h : tokenize tk c p b = some ex) :
    ex.input_ids.length ≤ c :=
  (tokenize_spec tk c p b ex h).2.2.2.2

/-- C6 witness: the theorem applied at the concrete tokenizer, a prompt of
three characters and cutoff 10. -/
theorem c6_input_ids_within_cutoff_witness :
    (⟨[40, 41, 42, 99], [1, 1, 1, 1], [40, 41, 42, 99]⟩ :
      TokenizedExample).input_ids.length ≤ 10 :=
  c6_input_ids_within_cutoff demoTok 10 "abZ" true
    ⟨[40, 41, 42, 99], [1, 1, 1, 1], [40, 41, 42, 99]⟩ (by decide)

/-- C7: when train_on_inputs is false and the tokenized prompt without the
output field is at least as long as the tokenized full prompt (truncation
before the output span), the pipeline still returns the example and every
label in it is the ignore sentinel; nothing filters such all-masked
examples out. -/
theorem c7_all_masked_still_returned (tk : Tokenizer) (c : Nat)
    (gp : String → String → Option String → String) (dp : DataPoint)
    (tfp tup : TokenizedExample)
    (htfp : tokenize tk c (gp dp.instruction dp.input (some dp.output)) true = some tfp)
    (htup : tokenize tk c (gp dp.instruction dp.input none) false = some tup)
    (hL : tfp.input_ids.length ≤ tup.input_ids.length) :
    ∃ ex, generate_and_tokenize_prompt tk c gp false dp = some ex ∧
      ∀ x ∈ ex.labels, x = LABEL_PAD_TOKEN_ID := by
  have hlab := (tokenize_spec _ _ _ _ _ htfp).1
  have hdrop : tfp.labels.drop tup.input_ids.length = [] :=
    List.drop_eq_nil_of_le (by rw [hlab]; exact hL)
  refine ⟨⟨tfp.input_ids, tfp.attention_mask,
    List.replicate tup.input_ids.length LABEL_PAD_TOKEN_ID ++
      tfp.labels.drop tup.input_ids.length⟩, ?_, ?_⟩
  · simp [generate_and_tokenize_prompt, htfp, htup]
  · intro x hx
    dsimp only at hx
    rw [hdrop, List.append_nil] at hx
    exact List.eq_of_mem_replicate hx

/-- C7 witness: with cutoff 2 the concrete full prompt truncates before its
output span, the split length equals the full length, and the returned
example is entirely masked. -/
theorem c7_all_masked_still_returned_witness :
    ∃ ex, generate_and_tokenize_prompt demoTok 2 demoGp false demoDp = some ex ∧
      ∀ x ∈ ex.labels, x = LABEL_PAD_TOKEN_ID :=
  c7_all_masked_still_returned demoTok 2 demoGp demoDp
    ⟨[40, 41], [1, 1], [40, 41]⟩ ⟨[40, 41], [1, 1], [40, 41]⟩
    (by decide) (by decide) (by decide)

/-- C8: rendering and the tokenize-and-mask pipeline are deterministic pure
functions of their arguments: invoking either twice with identical
arguments yields identical results.  In the source neither closure touches
state shared between invocations: each call of the Python functions builds
a fresh result dict, so their translation is a pure function and the
double-invocation equality holds by reflexivity. -/
theorem c8_render_and_pipeline_deterministic :
    (∀ (ins : String) (inp out : Option String) (tname : String),
      render ins inp out tname = render ins inp out tname) ∧
    (∀ (tk : Tokenizer) (c : Nat)
      (gp : String → String → Option String → String) (toi : Bool)
      (dp : DataPoint),
      generate_and_tokenize_prompt tk c gp toi dp =
        generate_and_tokenize_prompt tk c gp toi dp) :=
  ⟨fun _ _ _ _ => rfl, fun _ _ _ _ _ => rfl⟩

/-- C9: when the truncated tokenization of a prompt is empty, the tokenize
step produces no example: the unguarded access to the last element of
input_ids in the eos check fails, for either value of add_eos_token. -/
theorem c9_empty_tokenization_fails (tk : Tokenizer) (c : Nat) (p : String)
    (b : Bool) (h : (tk.encode p).take c = []) :
    tokenize tk c p b = none := by
  simp [tokenize, h]

/-- C9 witness: the concrete tokenizer on the empty prompt encodes to the
empty id list and the tokenize step fails. -/
theorem c9_empty_tokenization_fails_witness :
    tokenize demoTok 5 "" true = none :=
  c9_empty_tokenization_fails demoTok 5 "" true (by decide)

/-- C10: every attention mask produced by the pipeline consists entirely of
ones, that is, it equals the all-ones list of its own length: tokenization
runs with padding disabled and the only appended mask element is the
literal 1 of the eos append. -/
theorem c10_attention_mask_all_ones (tk : Tokenizer) (c : Nat)
    (gp : String → String → Option String → String) (toi : Bool)
    (dp : DataPoint) (ex : TokenizedExample)
    (h : generate_and_tokenize_prompt tk c gp toi dp = some ex) :
    ex.attention_mask = List.replicate ex.attention_mask.length 1 := by
  rw [List.eq_replicate_iff]
  refine ⟨rfl, ?_⟩
  cases toi
  case false =>
    obtain ⟨tfp, tup, htfp, htup, hex⟩ := pipeline_false_spec tk c gp dp ex h
    subst hex
    exact fun x hx => (tokenize_spec _ _ _ _ _ htfp).2.2.1 x hx
  case true =>
    exact (tokenize_spec _ _ _ _ _ (pipeline_true_spec tk c gp dp ex h)).2.2.1

/-- C10 witness: the theorem applied at the concrete record with cutoff 10
and train_on_inputs false. -/
theorem c10_attention_mask_all_ones_witness :
    (⟨[40, 41, 42, 99], [1, 1, 1, 1], [-100, -100, 42, 99]⟩ :
      TokenizedExample).attention_mask =
    List.replicate (⟨[40, 41, 42, 99], [1, 1, 1, 1], [-100, -100, 42, 99]⟩ :
      TokenizedExample).attention_mask.length 1 :=
  c10_attention_mask_all_ones demoTok 10 demoGp false demoDp
    ⟨[40, 41, 42, 99], [1, 1, 1, 1], [-100, -100, 42, 99]⟩ (by decide)
